import Mathlib

/-!
Verification development for the sql-agent backend/model lifecycle manager
(`src/sql_agent/utils/models/manager.py`), its state persistence layer
(`src/sql_agent/utils/persistence.py`) and the background status reporter
(`src/sql_agent/utils/status_reporter.py`).

The Python code is shallowly embedded: every external effect (subprocess
calls, HTTP requests, file writes) is replaced by an explicit environment
value describing that effect's outcome, and each method becomes a pure
function from the environment and the object's state to its result and the
updated state.  Wall-clock times are modelled as integers.
-/

/-! ## Model manager (`manager.py`)

`ModelManager` state.  The Python object's observable state consists of the
catalog `self.models` (a dict from model name to `ModelInfo`; none of the
embedded operations ever reads a `ModelInfo` payload, only names and their
insertion order, so the catalog is modelled by its ordered key list),
`self.using_local_ollama`, `self.ollama_mode`, `self.ollama_host`,
`self.current_model_id`, `self.ollama_available`, and the per-instance
mutable configuration fields `self.config.model_blacklist` and
`self.config.default_model_id` (flattened into the structure; `test_model`
mutates the blacklist in place).  The `self.model_discovery` helper object
holds no observable state beyond the host it was built from. -/
structure ModelManager where
  models : List String
  using_local_ollama : Bool
  ollama_mode : String
  ollama_host : String
  current_model_id : String
  ollama_available : Bool
  blacklist : List String
  default_model_id : String
deriving DecidableEq, Repr

/-- Default blacklist from `ModelManagerConfig.__post_init__`. -/
def default_model_blacklist : List String :=
  ["qwen2.5-coder:0.5b", "llama3.2:1b"]

/-- `ModelManager.is_model_blacklisted`: membership test
`model_id in self.config.model_blacklist`. -/
def is_model_blacklisted (m : ModelManager) (model_id : String) : Bool :=
  decide (model_id ∈ m.blacklist)

/-- Outcome of one `pull_model` call's external effects:
`res = none` models the subprocess raising (caught, returns `False`),
`res = some b` the subprocess completing with `returncode == 0` iff `b`;
`disc` is the outcome of the catalog refresh performed after a successful
pull (`none` models `discover_models` raising, which the surrounding
`try` catches, returning `False` with the catalog unchanged). -/
structure PullEnv where
  res : Option Bool
  disc : Option (List String)
deriving DecidableEq, Repr

/-- `ModelManager.pull_model`: refuses in remote mode; on a successful
subprocess run refreshes the catalog and returns `True`; every failure
(nonzero exit, exception, failed refresh) returns `False` leaving the
state unchanged. -/
def pull_model (env : PullEnv) (m : ModelManager) (model_id : String) :
    Bool × ModelManager :=
  if m.using_local_ollama = false then (false, m)
  else
    match env.res, env.disc with
    | some true, some d => (true, { m with models := d })
    | some true, none => (false, m)
    | _, _ => (false, m)

/-- `True` iff `pull_model` with this environment returns `True`
(in local mode): subprocess exits 0 and the refresh succeeds. -/
def pullSucceeds (env : PullEnv) : Bool :=
  match env.res, env.disc with
  | some true, some _ => true
  | _, _ => false

/-- The fixed, ordered fallback list from `ModelManager.get_best_model`. -/
def fallback_models : List String :=
  ["qwen2.5-coder:1.5b", "deepseek-r1:1.5b", "phi:latest",
   "gemma2:latest", "qwen2.5-coder:0.5b", "llama3.2:1b"]

/-- The `for model_id in fallback_models` loop of `get_best_model`:
skip blacklisted candidates; return a candidate already in the catalog;
in local mode try to pull a missing candidate (a successful pull returns
the candidate with the refreshed catalog, a failed pull leaves the state
unchanged and moves on); an exhausted list returns
`(self.current_model_id, True)`.  The environment maps each candidate
name to its pull outcome. -/
def getBestGo (penv : String → PullEnv) :
    List String → ModelManager → (String × Bool) × ModelManager
  | [], m => ((m.current_model_id, true), m)
  | c :: rest, m =>
    if is_model_blacklisted m c then getBestGo penv rest m
    else if c ∈ m.models then ((c, true), m)
    else if m.using_local_ollama then
      match pull_model (penv c) m c with
      | (true, m') => ((c, true), m')
      | (false, m') => getBestGo penv rest m'
    else getBestGo penv rest m

/-- `ModelManager.get_best_model`: the current model is kept when it is in
the catalog and not blacklisted; otherwise the fallback loop runs. -/
def get_best_model (penv : String → PullEnv) (m : ModelManager) :
    (String × Bool) × ModelManager :=
  if m.current_model_id ∈ m.models ∧ is_model_blacklisted m m.current_model_id = false
  then ((m.current_model_id, false), m)
  else getBestGo penv fallback_models m

/-- A candidate the fallback loop cannot use: blacklisted, or absent from
the catalog and not acquirable (remote mode, or its pull fails). -/
def candidateUnusable (penv : String → PullEnv) (m : ModelManager) (c : String) : Prop :=
  c ∈ m.blacklist ∨
    (c ∉ m.models ∧ (m.using_local_ollama = false ∨ pullSucceeds (penv c) = false))

instance (penv : String → PullEnv) (m : ModelManager) (c : String) :
    Decidable (candidateUnusable penv m c) := by
  unfold candidateUnusable
  infer_instance

/-- Outcomes of `switch_to_local_mode`'s external effects.
`which_ok = false` covers both a nonzero exit of `which ollama` and an
exception from it (both return `False` before any field is written).
`disc1` is the first `discover_models` (`none` = raised, the inner
`except` sets the catalog to `{}`); when it returns an empty dict the code
starts `ollama serve` (`popen_ok = false` models `Popen` raising, caught
by the same `except`, catalog `{}`) and retries discovery (`disc2`).
When the resulting catalog is empty, the code pulls `qwen2.5-coder:1.5b`
(`pull_small`, as in `PullEnv.res`) and on success refreshes once more
(`disc3`; `none` = raised, caught at the revert `except`). -/
structure LocalSwitchEnv where
  which_ok : Bool
  disc1 : Option (List String)
  popen_ok : Bool
  disc2 : Option (List String)
  pull_small : Option Bool
  disc3 : Option (List String)
deriving DecidableEq, Repr

/-- The catalog produced by lines 330-347 of `switch_to_local_mode`
(first discovery, optional `ollama serve` start, retry). -/
def localDiscovered (env : LocalSwitchEnv) : List String :=
  match env.disc1 with
  | none => []
  | some d =>
    if d.isEmpty then
      if env.popen_ok then
        match env.disc2 with
        | none => []
        | some d2 => d2
      else []
    else d

/-- `ModelManager.switch_to_local_mode`.  No-op returning `True` when
already local.  `which ollama` failing returns `False` untouched.
Otherwise the mode fields are mutated, the catalog replaced by the local
discovery result; the old model is kept if rediscovered, else the first
catalog entry is adopted, else `qwen2.5-coder:1.5b` is pulled — and on
any pull failure the mode, host and current model are restored (the
replaced catalog is not) and `False` is returned.  (`OllamaDiscovery.
__init__` only assigns attributes and cannot raise, so the outer
`except` is unreachable after the mutations.) -/
def switch_to_local_mode (env : LocalSwitchEnv) (m : ModelManager) :
    Bool × ModelManager :=
  if m.using_local_ollama then (true, m)
  else if env.which_ok = false then (false, m)
  else
    let m2 : ModelManager :=
      { m with using_local_ollama := true, ollama_mode := "local",
               ollama_host := "http://localhost:11434",
               models := localDiscovered env }
    if m.current_model_id ∈ m2.models then
      (true, { m2 with ollama_available := true })
    else if m2.models.isEmpty = false then
      (true, { m2 with current_model_id := m2.models.headI, ollama_available := true })
    else
      match env.pull_small, env.disc3 with
      | some true, some d3 =>
        (true, { m2 with current_model_id := "qwen2.5-coder:1.5b",
                         models := d3, ollama_available := true })
      | some true, none =>
        (false, { m2 with using_local_ollama := false, ollama_mode := m.ollama_mode,
                          ollama_host := m.ollama_host,
                          current_model_id := m.current_model_id })
      | _, _ =>
        (false, { m2 with using_local_ollama := false, ollama_mode := m.ollama_mode,
                          ollama_host := m.ollama_host,
                          current_model_id := m.current_model_id })

/-- Outcome of `switch_to_remote_mode`'s discovery call
(`none` = `discover_models` raised; caught, catalog set to `{}` and
availability to `False`). -/
structure RemoteSwitchEnv where
  disc : Option (List String)
deriving DecidableEq, Repr

/-- The catalog resulting from lines 429-435 of `switch_to_remote_mode`
(discovery result, or `{}` when discovery raised). -/
def remoteDiscovered (env : RemoteSwitchEnv) : List String :=
  match env.disc with
  | some d => d
  | none => []

/-- The `elif` of lines 420-423 of `switch_to_remote_mode`: a falsy or
localhost current host is replaced by the default remote host, any other
current host is kept. -/
def defaultedHost (oldHost : String) : String :=
  if oldHost = "" ∨ oldHost = "http://localhost:11434"
  then "http://192.168.1.37:11434" else oldHost

/-- The host chosen by lines 420-423 of `switch_to_remote_mode`: a truthy
explicit host wins, otherwise the `elif` applies.  (`if host:` is Python
truthiness, so an explicit empty string falls through to the `elif`.) -/
def remoteNewHost (hostArg : Option String) (oldHost : String) : String :=
  match hostArg with
  | some h => if h = "" then defaultedHost oldHost else h
  | none => defaultedHost oldHost

/-- `ModelManager.switch_to_remote_mode`.  No-op returning `True` when
already remote and no explicit host was passed (`host is None`).
Otherwise the mode fields are mutated, the catalog replaced by the remote
discovery result and availability set to its non-emptiness; the current
model is kept when available and rediscovered, else the first catalog
entry, else the configured default; the call returns
`self.ollama_available` — so when discovery finds nothing the call
returns `False` while leaving the manager switched.  (As for the local
switch, nothing after the mutations can raise, so the outer `except`'s
revert path is unreachable.) -/
def switch_to_remote_mode (hostArg : Option String) (env : RemoteSwitchEnv)
    (m : ModelManager) : Bool × ModelManager :=
  if m.using_local_ollama = false ∧ hostArg = none then (true, m)
  else
    let newModels : List String := remoteDiscovered env
    let m2 : ModelManager :=
      { m with using_local_ollama := false, ollama_mode := "remote",
               ollama_host := remoteNewHost hostArg m.ollama_host,
               models := newModels,
               ollama_available := !newModels.isEmpty }
    let m3 : ModelManager :=
      if m2.ollama_available = false ∨ m.current_model_id ∉ m2.models then
        if m2.models.isEmpty = false then
          { m2 with current_model_id := m2.models.headI }
        else
          { m2 with current_model_id := m.default_model_id }
      else
        { m2 with current_model_id := m.current_model_id }
    (m3.ollama_available, m3)

/-- Outcome of the local test subprocess in `test_model`: it raised a
`TimeoutExpired`, raised some other exception (with message text), or
completed with an exit code and captured stderr. -/
inductive TestRunOutcome where
  | timeoutExpired : TestRunOutcome
  | raised (msg : String) : TestRunOutcome
  | completed (rc : Int) (stderr : String) : TestRunOutcome
deriving DecidableEq, Repr

/-- Outcome of the remote test HTTP request in `test_model`. -/
inductive RemoteTestOutcome where
  | raised (msg : String) : RemoteTestOutcome
  | status (code : Int) (text : String) : RemoteTestOutcome
deriving DecidableEq, Repr

/-- Environment for one `test_model` call (only the branch matching the
manager's mode is consulted). -/
structure TestEnv where
  run : TestRunOutcome
  http : RemoteTestOutcome
deriving DecidableEq, Repr

/-- Boolean check that `pat` occurs at the start of `s` (character list). -/
def isPrefixB : List Char → List Char → Bool
  | [], _ => true
  | _ :: _, [] => false
  | a :: as, b :: bs => a == b && isPrefixB as bs

/-- Boolean substring containment, Python's `pat in s` on strings. -/
def containsB (pat : List Char) : List Char → Bool
  | [] => isPrefixB pat []
  | c :: rest => isPrefixB pat (c :: rest) || containsB pat rest

/-- The incompatibility signature scanned for in `test_model`. -/
def tensorSignature : String := "tensor 'output.weight' not found"

/-- Python's `"tensor 'output.weight' not found" in result.stderr`. -/
def containsSig (stderr : String) : Bool :=
  containsB tensorSignature.toList stderr.toList

/-- `ModelManager.test_model`.  An already blacklisted model fails fast.
In local mode a probe whose stderr contains the incompatibility signature
appends the model to the blacklist and fails; a nonzero exit or an
exception fails without touching the blacklist; exit 0 succeeds.  In
remote mode only the HTTP status is checked and the blacklist is never
touched. -/
def test_model (env : TestEnv) (m : ModelManager) (model_id : String) :
    (Bool × Option String) × ModelManager :=
  if is_model_blacklisted m model_id then
    ((false, some "Model is blacklisted due to known compatibility issues"), m)
  else if m.using_local_ollama then
    match env.run with
    | .completed rc stderr =>
      if containsSig stderr then
        ((false, some "Tensor initialization error"),
         { m with blacklist := m.blacklist ++ [model_id] })
      else if rc ≠ 0 then
        ((false, some ("Model test failed: " ++ stderr)), m)
      else ((true, none), m)
    | .timeoutExpired => ((false, some "Timeout waiting for model response"), m)
    | .raised msg => ((false, some ("Error testing model: " ++ msg)), m)
  else
    match env.http with
    | .status code text =>
      if code ≠ 200 then ((false, some ("API error: " ++ text)), m)
      else ((true, none), m)
    | .raised msg => ((false, some ("Error testing model: " ++ msg)), m)

/-! ## State persistence (`persistence.py`)

`StatePersistence.state` is a JSON-valued Python dict.  It is embedded as
an insertion-ordered association list over a JSON value type; timestamps
(`time.time()` floats) are modelled as integers. -/

/-- JSON values appearing in the persisted state. -/
inductive JVal where
  | jnull : JVal
  | jint (n : Int) : JVal
  | jstr (s : String) : JVal
  | jobj (fields : List (String × JVal)) : JVal
deriving Repr

/-- First-match association lookup, Python's `d[k]` / `k in d`. -/
def jlookup (k : String) : List (String × JVal) → Option JVal
  | [] => none
  | (k', v) :: rest => if k' = k then some v else jlookup k rest

/-- Python's `d[k] = v`: replace in place when the key is present, append
otherwise. -/
def dictInsert (k : String) (v : JVal) :
    List (String × JVal) → List (String × JVal)
  | [] => [(k, v)]
  | (k', v') :: rest =>
    if k' = k then (k, v) :: rest else (k', v') :: dictInsert k v rest

/-- Python's `d.update(f)`: insert `f`'s entries left to right. -/
def dictUpdate (d f : List (String × JVal)) : List (String × JVal) :=
  f.foldl (fun acc kv => dictInsert kv.1 kv.2 acc) d

/-- The in-memory default state built by `StatePersistence.__init__`
(`t0` is the construction-time `time.time()`). -/
def default_state (t0 : Int) : List (String × JVal) :=
  [("version", .jint 1),
   ("last_updated", .jint t0),
   ("databases", .jobj []),
   ("current_db", .jnull),
   ("models", .jobj []),
   ("current_model", .jnull),
   ("config", .jobj [("ollama_host", .jstr "http://localhost:11434"),
                     ("ui_port", .jint 8046)])]

/-- `StatePersistence` object state (the `state_file` path is fixed
configuration and plays no role in the embedded behaviour). -/
structure StatePersistence where
  state : List (String × JVal)
  last_save_time : Int
  auto_save_interval : Int
deriving Repr

/-- `StatePersistence.load_state`.  The argument is the parse of the
backing file: `none` when the file is missing, unreadable or corrupt, or
its top level is not an object (every such error is caught and the
in-memory state kept); `some fields` when it parses to an object, whose
entries are then merged over the current state with `dict.update`. -/
def load_state (file : Option (List (String × JVal)))
    (sp : StatePersistence) : StatePersistence :=
  match file with
  | none => sp
  | some fields => { sp with state := dictUpdate sp.state fields }

/-- `StatePersistence.__init__`: defaults, then an immediate
`load_state` against whatever the backing file holds. -/
def mkStatePersistence (t0 : Int) (auto_save_interval : Int)
    (file : Option (List (String × JVal))) : StatePersistence :=
  load_state file
    { state := default_state t0, last_save_time := 0,
      auto_save_interval := auto_save_interval }

/-- `StatePersistence.save_state`.  Returns the success flag, the updated
object and the file content written (`none` when the write was skipped or
raised; a raising write is modelled by `writeOk = false`).  When `force`
is false, a positive `auto_save_interval` not yet elapsed since
`last_save_time` skips everything.  Otherwise `state["last_updated"]` is
set to `now` before the write is attempted, and only a successful write
advances `last_save_time` and returns `True`. -/
def save_state (force : Bool) (now : Int) (writeOk : Bool)
    (sp : StatePersistence) :
    Bool × StatePersistence × Option (List (String × JVal)) :=
  if force = false ∧ 0 < sp.auto_save_interval ∧
      now - sp.last_save_time < sp.auto_save_interval then
    (false, sp, none)
  else
    let st' := dictInsert "last_updated" (.jint now) sp.state
    if writeOk then (true, { sp with state := st', last_save_time := now }, some st')
    else (false, { sp with state := st' }, none)

/-- Lookup of a key nested inside the state's `"config"` object. -/
def configLookup (k : String) (st : List (String × JVal)) : Option JVal :=
  match jlookup "config" st with
  | some (.jobj c) => jlookup k c
  | _ => none

/-! ## Status reporter (`status_reporter.py`)

The reporter loop and `stop()` run on two threads; they are embedded as a
labelled step relation over a configuration recording the shared
`self.running` flag, the reporter thread's position in `_reporter_loop`,
and `stop()`'s progress.  A `write` label marks the execution of
`_update_status_file` (the write of the status artifact; exceptions inside
it are caught and do not change the control flow being modelled). -/

/-- Position of the reporter thread in `_reporter_loop`: about to test
`while self.running`, about to run `_update_status_file`, inside
`time.sleep`, or exited. -/
inductive TPC where
  | check : TPC
  | write : TPC
  | sleep : TPC
  | done : TPC
deriving DecidableEq, Repr

/-- Progress of `StatusReporter.stop()`: not yet called, `self.running`
cleared and `join(timeout=3)` pending, or returned. -/
inductive SPC where
  | idle : SPC
  | signalled : SPC
  | returned : SPC
deriving DecidableEq, Repr

/-- Joint configuration of the reporter thread and the stopping caller. -/
structure RCfg where
  running : Bool
  tpc : TPC
  spc : SPC
deriving DecidableEq, Repr

/-- Observable events: a write of the status artifact by the loop. -/
inductive REvent where
  | write : REvent
deriving DecidableEq, Repr

/-- One interleaved step of the reporter loop or of `stop()`.  The loop
tests `self.running`, performs the tick's write, sleeps and repeats, and
exits once the flag is clear.  `stop()` first clears the flag, then
`join(timeout=3)` either observes the thread finished or times out while
the thread is still alive (real-time durations are abstracted into this
nondeterministic choice); either way `stop()` then returns. -/
inductive ReporterStep : RCfg → Option REvent → RCfg → Prop
  | check_true (c : RCfg) : c.tpc = .check → c.running = true →
      ReporterStep c none { c with tpc := .write }
  | check_false (c : RCfg) : c.tpc = .check → c.running = false →
      ReporterStep c none { c with tpc := .done }
  | tick_write (c : RCfg) : c.tpc = .write →
      ReporterStep c (some .write) { c with tpc := .sleep }
  | tick_sleep (c : RCfg) : c.tpc = .sleep →
      ReporterStep c none { c with tpc := .check }
  | stop_signal (c : RCfg) : c.spc = .idle →
      ReporterStep c none { c with running := false, spc := .signalled }
  | stop_join_done (c : RCfg) : c.spc = .signalled → c.tpc = .done →
      ReporterStep c none { c with spc := .returned }
  | stop_join_timeout (c : RCfg) : c.spc = .signalled → c.tpc ≠ .done →
      ReporterStep c none { c with spc := .returned }

/-- Reachability through interleaved steps. -/
def ReporterReach : RCfg → RCfg → Prop :=
  Relation.ReflTransGen (fun a b => ∃ e, ReporterStep a e b)

/-- Configuration right after `start()`: the flag is set, the freshly
started thread is about to test the loop condition, `stop()` not called. -/
def reporterStart : RCfg :=
  { running := true, tpc := .check, spc := .idle }

/-! ## Concrete states and environments used in witnesses and
counterexamples -/

/-- Pull environment in which every acquisition attempt fails. -/
def penvFail : String → PullEnv := fun _ => { res := some false, disc := none }

/-- Local-switch environment in which `which ollama` fails. -/
def envLWhichFail : LocalSwitchEnv :=
  { which_ok := false, disc1 := none, popen_ok := false, disc2 := none,
    pull_small := none, disc3 := none }

/-- A manager in local mode serving one model. -/
def mgrLocal1 : ModelManager :=
  { models := ["m1"], using_local_ollama := true, ollama_mode := "local",
    ollama_host := "http://localhost:11434", current_model_id := "m1",
    ollama_available := true, blacklist := default_model_blacklist,
    default_model_id := "qwen2.5-coder:1.5b" }

/-- A remote-mode manager whose catalog holds only `"foo"` (a model not in
the fallback list) and whose current model is blacklisted. -/
def mgrCatalogFoo : ModelManager :=
  { models := ["foo"], using_local_ollama := false, ollama_mode := "remote",
    ollama_host := "http://192.168.1.37:11434",
    current_model_id := "qwen2.5-coder:0.5b", ollama_available := true,
    blacklist := default_model_blacklist,
    default_model_id := "qwen2.5-coder:1.5b" }

/-- A remote-mode manager with an explicit host and one served model. -/
def mgrRemoteA : ModelManager :=
  { models := ["m1"], using_local_ollama := false, ollama_mode := "remote",
    ollama_host := "http://a:1", current_model_id := "m1",
    ollama_available := true, blacklist := [], default_model_id := "d" }

/-- A remote-mode manager with an empty catalog and an unusable preferred
model `"z"`. -/
def mgrExhausted : ModelManager :=
  { models := [], using_local_ollama := false, ollama_mode := "remote",
    ollama_host := "http://192.168.1.37:11434", current_model_id := "z",
    ollama_available := false, blacklist := default_model_blacklist,
    default_model_id := "qwen2.5-coder:1.5b" }

/-- A local-mode manager with an empty blacklist whose catalog holds
`"x"` and a fallback candidate. -/
def mgrFreshLocal : ModelManager :=
  { models := ["x", "qwen2.5-coder:1.5b"], using_local_ollama := true,
    ollama_mode := "local", ollama_host := "http://localhost:11434",
    current_model_id := "x", ollama_available := true, blacklist := [],
    default_model_id := "qwen2.5-coder:1.5b" }

/-- Stderr of a failed probe carrying the incompatibility signature. -/
def sigStderr : String :=
  "llama runner exited: tensor 'output.weight' not found"

/-- Test environment whose local probe emits the signature. -/
def testEnvSig : TestEnv :=
  { run := .completed 1 sigStderr, http := .status 200 "" }

/-- Test environment whose remote probe's failing response text carries
the same signature. -/
def testEnvSigRemote : TestEnv :=
  { run := .completed 0 "", http := .status 500 sigStderr }

/-- A remote-mode manager with an empty blacklist serving `"x"`. -/
def mgrRemoteX : ModelManager :=
  { models := ["x"], using_local_ollama := false, ollama_mode := "remote",
    ollama_host := "http://192.168.1.37:11434", current_model_id := "x",
    ollama_available := true, blacklist := [],
    default_model_id := "qwen2.5-coder:1.5b" }

/-- A state file holding only a config section that lacks `"ui_port"`. -/
def fileC5 : List (String × JVal) :=
  [("config", .jobj [("ollama_host", .jstr "http://10.0.0.5:11434")])]

/-- A persistence object holding the defaults with some elapsed history. -/
def spW : StatePersistence :=
  { state := default_state 5, last_save_time := 50, auto_save_interval := 60 }

/-- Reached by: one loop-condition test, `stop()` clearing the flag, and
the join timing out while the tick is still about to write. -/
def cfgReturnedWrite : RCfg :=
  { running := false, tpc := .write, spc := .returned }

/-- The configuration after that late write. -/
def cfgAfterWrite : RCfg :=
  { running := false, tpc := .sleep, spc := .returned }

/-! ## Helper lemmas -/

theorem reporterStep_done_absorbing (c : RCfg) (e : Option REvent) (c' : RCfg)
    (h : ReporterStep c e c') (hdone : c.tpc = TPC.done) :
    c'.tpc = TPC.done ∧ e ≠ some REvent.write := by
  cases h <;> simp_all

theorem reporterStep_running_false (c : RCfg) (e : Option REvent) (c' : RCfg)
    (h : ReporterStep c e c') (hr : c.running = false) :
    c'.running = false := by
  cases h <;> simp_all

theorem is_model_blacklisted_true_iff (m : ModelManager) (c : String) :
    is_model_blacklisted m c = true ↔ c ∈ m.blacklist := by
  simp [is_model_blacklisted]

theorem is_model_blacklisted_false_iff (m : ModelManager) (c : String) :
    is_model_blacklisted m c = false ↔ c ∉ m.blacklist := by
  simp [is_model_blacklisted]

theorem pull_model_fail (e : PullEnv) (m : ModelManager) (id : String)
    (h : pullSucceeds e = false) : pull_model e m id = (false, m) := by
  obtain ⟨res, disc⟩ := e
  rcases hu : m.using_local_ollama <;>
    rcases res with _ | (_ | _) <;>
    rcases disc with _ | d <;>
    simp_all [pull_model, pullSucceeds]

theorem pull_model_success (e : PullEnv) (m : ModelManager) (id : String)
    (hl : m.using_local_ollama = true) (h : pullSucceeds e = true) :
    ∃ d, e.disc = some d ∧ pull_model e m id = (true, { m with models := d }) := by
  obtain ⟨res, disc⟩ := e
  rcases res with _ | (_ | _) <;>
    rcases disc with _ | d <;>
    simp_all [pull_model, pullSucceeds]

theorem pull_model_blacklist (e : PullEnv) (m : ModelManager) (id : String) :
    ((pull_model e m id).2).blacklist = m.blacklist := by
  obtain ⟨res, disc⟩ := e
  rcases hu : m.using_local_ollama <;>
    rcases res with _ | (_ | _) <;>
    rcases disc with _ | d <;>
    simp_all [pull_model]

theorem test_model_remote_blacklist (tenv : TestEnv) (m : ModelManager)
    (y : String) (h : m.using_local_ollama = false) :
    ((test_model tenv m y).2).blacklist = m.blacklist := by
  unfold test_model
  split
  · rfl
  · rw [if_neg (by simp [h])]
    repeat' split
    all_goals rfl

theorem getBestGo_blacklist (penv : String → PullEnv) :
    ∀ (l : List String) (m : ModelManager),
      ((getBestGo penv l m).2).blacklist = m.blacklist := by
  intro l
  induction l with
  | nil => intro m; simp [getBestGo]
  | cons c rest ih =>
    intro m
    unfold getBestGo
    split
    · exact ih m
    · split
      · simp
      · split
        · rename_i hl
          rcases hp : pull_model (penv c) m c with ⟨ok, m'⟩
          have hbl : m'.blacklist = m.blacklist := by
            have := pull_model_blacklist (penv c) m c
            rw [hp] at this; exact this
          rcases ok
          · simp only [hp]
            rw [ih m', hbl]
          · simp only [hp]
            exact hbl
        · exact ih m

theorem getBestGo_exhaust (penv : String → PullEnv) :
    ∀ (l : List String) (m : ModelManager),
      (∀ c ∈ l, candidateUnusable penv m c) →
      getBestGo penv l m = ((m.current_model_id, true), m) := by
  intro l
  induction l with
  | nil => intro m _; simp [getBestGo]
  | cons c rest ih =>
    intro m h
    have hc := h c (List.mem_cons_self c rest)
    have hrest : ∀ x ∈ rest, candidateUnusable penv m x :=
      fun x hx => h x (List.mem_cons_of_mem c hx)
    unfold getBestGo
    rcases hbl : is_model_blacklisted m c
    · have hcnot : c ∉ m.blacklist := (is_model_blacklisted_false_iff m c).mp hbl
      rcases hc with hc | ⟨hmem, hrem⟩
      · exact absurd hc hcnot
      · simp only [hbl, Bool.false_eq_true, if_false, hmem, if_false]
        rcases hrem with hrem | hpull
        · simp [hrem, ih m hrest]
        · rcases hu : m.using_local_ollama
          · simp [ih m hrest]
          · have hp := pull_model_fail (penv c) m c hpull
            simp [hp, ih m hrest]
    · simp [ih m hrest]

theorem getBestGo_usable (penv : String → PullEnv) :
    ∀ (l : List String) (m : ModelManager),
      (∃ c ∈ l, ¬ candidateUnusable penv m c) →
      (getBestGo penv l m).1.1 ∉ m.blacklist := by
  intro l
  induction l with
  | nil => rintro m ⟨c, hc, _⟩; exact absurd hc (List.not_mem_nil c)
  | cons c rest ih =>
    rintro m ⟨c0, hc0mem, hc0⟩
    have hc0bl : c0 ∉ m.blacklist := fun hbl => hc0 (Or.inl hbl)
    unfold getBestGo
    rcases hbl : is_model_blacklisted m c
    · have hcnot : c ∉ m.blacklist := (is_model_blacklisted_false_iff m c).mp hbl
      simp only [hbl, Bool.false_eq_true, if_false]
      rcases hmem : decide (c ∈ m.models) with _ | _
      · have hcm : c ∉ m.models := by simpa using hmem
        simp only [hcm, if_false]
        rcases hu : m.using_local_ollama
        · -- remote mode: the head cannot be the usable witness
          have : c0 ∈ rest := by
            rcases List.mem_cons.mp hc0mem with rfl | h
            · exfalso
              exact hc0 (Or.inr ⟨hcm, Or.inl hu⟩)
            · exact h
          simpa [hu] using ih m ⟨c0, this, hc0⟩
        · rcases hps : pullSucceeds (penv c)
          · have hp := pull_model_fail (penv c) m c hps
            have : c0 ∈ rest := by
              rcases List.mem_cons.mp hc0mem with rfl | h
              · exfalso
                exact hc0 (Or.inr ⟨hcm, Or.inr hps⟩)
              · exact h
            simpa [hu, hp] using ih m ⟨c0, this, hc0⟩
          · obtain ⟨d, _, hp⟩ := pull_model_success (penv c) m c hu hps
            simpa [hu, hp] using hcnot
      · have hcm : c ∈ m.models := by simpa using hmem
        simpa [hcm] using hcnot
    · -- head blacklisted: witness is in the tail
      have : c0 ∈ rest := by
        rcases List.mem_cons.mp hc0mem with rfl | h
        · exact absurd ((is_model_blacklisted_true_iff m c0).mp hbl) hc0bl
        · exact h
      simpa using ih m ⟨c0, this, hc0⟩

theorem get_best_model_exhaust (penv : String → PullEnv) (m : ModelManager)
    (h1 : ¬ (m.current_model_id ∈ m.models ∧ m.current_model_id ∉ m.blacklist))
    (h2 : ∀ c ∈ fallback_models, candidateUnusable penv m c) :
    get_best_model penv m = ((m.current_model_id, true), m) := by
  unfold get_best_model
  rw [if_neg (by rw [is_model_blacklisted_false_iff]; exact h1)]
  exact getBestGo_exhaust penv fallback_models m h2

theorem get_best_model_not_blacklisted (penv : String → PullEnv) (m : ModelManager)
    (h : (m.current_model_id ∈ m.models ∧ m.current_model_id ∉ m.blacklist) ∨
         (∃ c ∈ fallback_models, ¬ candidateUnusable penv m c)) :
    (get_best_model penv m).1.1 ∉ m.blacklist := by
  unfold get_best_model
  by_cases hfirst : m.current_model_id ∈ m.models ∧
      is_model_blacklisted m m.current_model_id = false
  · rw [if_pos hfirst]
    exact (is_model_blacklisted_false_iff m _).mp hfirst.2
  · rw [if_neg hfirst]
    rcases h with h | h
    · exact absurd ⟨h.1, (is_model_blacklisted_false_iff m _).mpr h.2⟩ hfirst
    · exact getBestGo_usable penv fallback_models m h

theorem get_best_model_blacklist (penv : String → PullEnv) (m : ModelManager) :
    ((get_best_model penv m).2).blacklist = m.blacklist := by
  unfold get_best_model
  split
  · rfl
  · exact getBestGo_blacklist penv fallback_models m

theorem jlookup_dictInsert_self (k : String) (v : JVal) :
    ∀ d, jlookup k (dictInsert k v d) = some v := by
  intro d
  induction d with
  | nil => simp [dictInsert, jlookup]
  | cons kv rest ih =>
    obtain ⟨k', v'⟩ := kv
    unfold dictInsert
    by_cases h : k' = k
    · rw [if_pos h]; simp [jlookup]
    · rw [if_neg h]; simp [jlookup, h, ih]

theorem jlookup_dictInsert_ne (k k' : String) (v : JVal) (h : k' ≠ k) :
    ∀ d, jlookup k (dictInsert k' v d) = jlookup k d := by
  intro d
  induction d with
  | nil => simp [dictInsert, jlookup, h]
  | cons kv rest ih =>
    obtain ⟨a, b⟩ := kv
    unfold dictInsert
    by_cases ha : a = k'
    · rw [if_pos ha]
      subst ha
      simp [jlookup, h]
    · rw [if_neg ha]
      simp only [jlookup, ih]

theorem mem_keys_dictInsert (a k : String) (v : JVal) :
    ∀ d, a ∈ (dictInsert k v d).map Prod.fst ↔ (a = k ∨ a ∈ d.map Prod.fst) := by
  intro d
  induction d with
  | nil => simp [dictInsert]
  | cons kv rest ih =>
    obtain ⟨k', v'⟩ := kv
    unfold dictInsert
    by_cases h : k' = k
    · rw [if_pos h]
      subst h
      simp
    · rw [if_neg h]
      simp [ih]
      tauto

theorem nodup_keys_dictInsert (k : String) (v : JVal) :
    ∀ d, (d.map Prod.fst).Nodup → ((dictInsert k v d).map Prod.fst).Nodup := by
  intro d
  induction d with
  | nil => simp [dictInsert]
  | cons kv rest ih =>
    obtain ⟨k', v'⟩ := kv
    intro hnd
    simp only [List.map_cons, List.nodup_cons] at hnd
    unfold dictInsert
    by_cases h : k' = k
    · rw [if_pos h]
      subst h
      simp only [List.map_cons, List.nodup_cons]
      exact hnd
    · rw [if_neg h]
      simp only [List.map_cons, List.nodup_cons]
      refine ⟨?_, ih hnd.2⟩
      rw [mem_keys_dictInsert]
      rintro (rfl | hmem)
      · exact h rfl
      · exact hnd.1 hmem

theorem dictUpdate_cons (d : List (String × JVal)) (k : String) (v : JVal)
    (f : List (String × JVal)) :
    dictUpdate d ((k, v) :: f) = dictUpdate (dictInsert k v d) f := by
  simp [dictUpdate]

theorem jlookup_dictUpdate_not_mem :
    ∀ (f d : List (String × JVal)) (k : String), k ∉ f.map Prod.fst →
      jlookup k (dictUpdate d f) = jlookup k d := by
  intro f
  induction f with
  | nil => intro d k _; rfl
  | cons kv f' ih =>
    obtain ⟨k1, v1⟩ := kv
    intro d k hk
    simp only [List.map_cons, List.mem_cons, not_or] at hk
    rw [dictUpdate_cons, ih _ k hk.2, jlookup_dictInsert_ne k k1 v1 (fun h => hk.1 h.symm)]

theorem jlookup_dictUpdate_mem :
    ∀ (f d : List (String × JVal)) (k : String), (f.map Prod.fst).Nodup →
      k ∈ f.map Prod.fst → jlookup k (dictUpdate d f) = jlookup k f := by
  intro f
  induction f with
  | nil => intro d k _ hk; exact absurd hk (List.not_mem_nil k)
  | cons kv f' ih =>
    obtain ⟨k1, v1⟩ := kv
    intro d k hnd hk
    simp only [List.map_cons, List.nodup_cons] at hnd
    rw [dictUpdate_cons]
    simp only [List.map_cons, List.mem_cons] at hk
    rcases hk with rfl | hk
    · rw [jlookup_dictUpdate_not_mem f' _ k hnd.1,
        jlookup_dictInsert_self k v1 d]
      simp [jlookup]
    · have hne : k ≠ k1 := fun h => hnd.1 (h ▸ hk)
      have hne' : k1 ≠ k := fun h => hne h.symm
      rw [ih _ k hnd.2 hk]
      simp [jlookup, hne']

theorem switch_local_blacklist (env : LocalSwitchEnv) (m : ModelManager) :
    ((switch_to_local_mode env m).2).blacklist = m.blacklist := by
  unfold switch_to_local_mode
  dsimp only
  repeat' split
  all_goals rfl

theorem switch_remote_blacklist (hostArg : Option String) (env : RemoteSwitchEnv)
    (m : ModelManager) :
    ((switch_to_remote_mode hostArg env m).2).blacklist = m.blacklist := by
  unfold switch_to_remote_mode
  dsimp only
  repeat' split
  all_goals rfl

theorem switch_local_noop (env : LocalSwitchEnv) (m : ModelManager)
    (h : m.using_local_ollama = true) : switch_to_local_mode env m = (true, m) := by
  unfold switch_to_local_mode
  simp [h]

theorem switch_remote_noop (env : RemoteSwitchEnv) (m : ModelManager)
    (h : m.using_local_ollama = false) :
    switch_to_remote_mode none env m = (true, m) := by
  unfold switch_to_remote_mode
  simp [h]

theorem switch_local_fail_eval (env : LocalSwitchEnv) (m : ModelManager)
    (hb : m.using_local_ollama = false) (hw : env.which_ok = true)
    (hD : localDiscovered env = [])
    (hfail : env.pull_small = some true → env.disc3 = none) :
    switch_to_local_mode env m = (false, { m with models := [] }) := by
  unfold switch_to_local_mode
  rw [if_neg (by simp [hb]), if_neg (by simp [hw])]
  dsimp only
  rw [if_neg (by rw [hD]; exact List.not_mem_nil _),
    if_neg (by rw [hD]; simp)]
  rcases hps : env.pull_small with _ | b
  · rcases hd3 : env.disc3 with _ | d3 <;> simp [hps, hd3, hb, hD]
  · rcases b
    · rcases hd3 : env.disc3 with _ | d3 <;> simp [hps, hd3, hb, hD]
    · have hd3 := hfail hps
      simp [hps, hd3, hb, hD]

theorem switch_local_run_classify (env : LocalSwitchEnv) (m : ModelManager)
    (hb : m.using_local_ollama = false) (hw : env.which_ok = true) :
    ((switch_to_local_mode env m).1 = true ∧
      ((switch_to_local_mode env m).2).using_local_ollama = true) ∨
    (localDiscovered env = [] ∧ (env.pull_small = some true → env.disc3 = none) ∧
      switch_to_local_mode env m = (false, { m with models := [] })) := by
  by_cases hmem : m.current_model_id ∈ localDiscovered env
  · left
    unfold switch_to_local_mode
    rw [if_neg (by simp [hb]), if_neg (by simp [hw])]
    dsimp only
    rw [if_pos hmem]
    exact ⟨rfl, rfl⟩
  · by_cases hne : (localDiscovered env).isEmpty = false
    · left
      unfold switch_to_local_mode
      rw [if_neg (by simp [hb]), if_neg (by simp [hw])]
      dsimp only
      rw [if_neg hmem, if_pos hne]
      exact ⟨rfl, rfl⟩
    · have hD : localDiscovered env = [] := by
        rcases hl : localDiscovered env with _ | ⟨a, t⟩
        · rfl
        · rw [hl] at hne
          simp at hne
      rcases hps : env.pull_small with _ | b
      · exact Or.inr ⟨hD, by simp [hps], switch_local_fail_eval env m hb hw hD (by simp [hps])⟩
      · rcases b
        · exact Or.inr ⟨hD, by simp [hps], switch_local_fail_eval env m hb hw hD (by simp [hps])⟩
        · rcases hd3 : env.disc3 with _ | d3
          · exact Or.inr ⟨hD, fun _ => rfl,
              switch_local_fail_eval env m hb hw hD (fun _ => hd3)⟩
          · left
            unfold switch_to_local_mode
            rw [if_neg (by simp [hb]), if_neg (by simp [hw])]
            dsimp only
            rw [if_neg hmem, if_neg (by rw [hD]; simp), hps, hd3]
            exact ⟨rfl, rfl⟩

theorem switch_local_success_using (env : LocalSwitchEnv) (m : ModelManager)
    (h : (switch_to_local_mode env m).1 = true) :
    ((switch_to_local_mode env m).2).using_local_ollama = true := by
  by_cases hb : m.using_local_ollama = true
  · rw [switch_local_noop env m hb]
    exact hb
  · have hb' : m.using_local_ollama = false := by
      rcases hx : m.using_local_ollama
      · rfl
      · exact absurd hx hb
    rcases hw : env.which_ok
    · rw [show switch_to_local_mode env m = (false, m) by
        unfold switch_to_local_mode
        rw [if_neg (by simp [hb']), if_pos (by rw [hw])]] at h
      simp at h
    · rcases switch_local_run_classify env m hb' hw with ⟨_, husing⟩ | ⟨_, _, heq⟩
      · exact husing
      · rw [heq] at h
        simp at h

theorem switch_local_fail_restore (env : LocalSwitchEnv) (m : ModelManager)
    (h : (switch_to_local_mode env m).1 = false) :
    ((switch_to_local_mode env m).2).ollama_mode = m.ollama_mode ∧
    ((switch_to_local_mode env m).2).ollama_host = m.ollama_host ∧
    ((switch_to_local_mode env m).2).current_model_id = m.current_model_id ∧
    ((switch_to_local_mode env m).2).using_local_ollama = m.using_local_ollama := by
  by_cases hb : m.using_local_ollama = true
  · rw [switch_local_noop env m hb] at h
    simp at h
  · have hb' : m.using_local_ollama = false := by
      rcases hx : m.using_local_ollama
      · rfl
      · exact absurd hx hb
    rcases hw : env.which_ok
    · rw [show switch_to_local_mode env m = (false, m) by
        unfold switch_to_local_mode
        rw [if_neg (by simp [hb']), if_pos (by rw [hw])]]
      exact ⟨rfl, rfl, rfl, rfl⟩
    · rcases switch_local_run_classify env m hb' hw with ⟨hok, _⟩ | ⟨_, _, heq⟩
      · rw [hok] at h
        simp at h
      · rw [heq]
        exact ⟨rfl, rfl, rfl, rfl⟩

theorem switch_local_idem (env : LocalSwitchEnv) (m : ModelManager) :
    (switch_to_local_mode env (switch_to_local_mode env m).2).2 =
      (switch_to_local_mode env m).2 := by
  by_cases hb : m.using_local_ollama = true
  · rw [switch_local_noop env m hb]
    dsimp only
    rw [switch_local_noop env m hb]
  · have hb' : m.using_local_ollama = false := by
      rcases hx : m.using_local_ollama
      · rfl
      · exact absurd hx hb
    rcases hw : env.which_ok
    · rw [show switch_to_local_mode env m = (false, m) by
        unfold switch_to_local_mode
        rw [if_neg (by simp [hb']), if_pos (by rw [hw])]]
      dsimp only
      rw [show switch_to_local_mode env m = (false, m) by
        unfold switch_to_local_mode
        rw [if_neg (by simp [hb']), if_pos (by rw [hw])]]
    · rcases switch_local_run_classify env m hb' hw with ⟨hok, husing⟩ | ⟨hD, hfail, heq⟩
      · rw [switch_local_noop env _ husing]
      · rw [heq]
        dsimp only
        rw [switch_local_fail_eval env { m with models := [] } hb' hw hD hfail]

theorem headI_mem_of_not_isEmpty (l : List String) (h : l.isEmpty = false) :
    l.headI ∈ l := by
  cases l with
  | nil => simp at h
  | cons a t => simp [List.headI]

theorem defaultedHost_idem (x : String) :
    defaultedHost (defaultedHost x) = defaultedHost x := by
  unfold defaultedHost
  by_cases hx : x = "" ∨ x = "http://localhost:11434"
  · rw [if_pos hx, if_neg (by decide)]
  · rw [if_neg hx, if_neg hx]

theorem remoteNewHost_idem (hostArg : Option String) (x : String) :
    remoteNewHost hostArg (remoteNewHost hostArg x) = remoteNewHost hostArg x := by
  rcases hostArg with _ | s
  · exact defaultedHost_idem x
  · by_cases hs : s = ""
    · have h1 : ∀ y, remoteNewHost (some s) y = defaultedHost y := by
        intro y
        simp [remoteNewHost, hs]
      rw [h1, h1]
      exact defaultedHost_idem x
    · have h1 : ∀ y, remoteNewHost (some s) y = s := by
        intro y
        simp [remoteNewHost, hs]
      rw [h1, h1]

theorem switch_remote_run (hostArg : Option String) (env : RemoteSwitchEnv)
    (m : ModelManager) (hno : ¬ (m.using_local_ollama = false ∧ hostArg = none)) :
    switch_to_remote_mode hostArg env m =
      (!(remoteDiscovered env).isEmpty,
       { m with using_local_ollama := false, ollama_mode := "remote",
                ollama_host := remoteNewHost hostArg m.ollama_host,
                models := remoteDiscovered env,
                ollama_available := !(remoteDiscovered env).isEmpty,
                current_model_id :=
                  if (!(remoteDiscovered env).isEmpty) = false ∨
                      m.current_model_id ∉ remoteDiscovered env then
                    if (remoteDiscovered env).isEmpty = false then
                      (remoteDiscovered env).headI
                    else m.default_model_id
                  else m.current_model_id }) := by
  unfold switch_to_remote_mode
  rw [if_neg hno]
  dsimp only
  split_ifs <;> rfl

theorem switch_remote_idem (hostArg : Option String) (env : RemoteSwitchEnv)
    (m : ModelManager) :
    (switch_to_remote_mode hostArg env (switch_to_remote_mode hostArg env m).2).2 =
      (switch_to_remote_mode hostArg env m).2 := by
  by_cases hno : m.using_local_ollama = false ∧ hostArg = none
  · obtain ⟨h1, rfl⟩ := hno
    rw [switch_remote_noop env m h1]
    dsimp only
    rw [switch_remote_noop env m h1]
  · rcases hq : hostArg with _ | hs
    · subst hq
      rw [switch_remote_run none env m hno]
      dsimp only
      rw [switch_remote_noop env _ rfl]
    · subst hq
      rw [switch_remote_run (some hs) env m hno]
      dsimp only
      rw [switch_remote_run (some hs) env _ (by simp)]
      dsimp only
      rw [remoteNewHost_idem]
      rcases hD : (remoteDiscovered env).isEmpty
      · have hmem : (remoteDiscovered env).headI ∈ remoteDiscovered env :=
          headI_mem_of_not_isEmpty _ hD
        by_cases hc : (!(remoteDiscovered env).isEmpty) = false ∨
            m.current_model_id ∉ remoteDiscovered env
        · have hcm : m.current_model_id ∉ remoteDiscovered env := by
            rcases hc with hc | hc
            · rw [hD] at hc
              simp at hc
            · exact hc
          simp [hD, hcm, hmem]
        · push_neg at hc
          simp [hD, hc.2]
      · simp [hD]

/-! ## Claims -/

/-- C1, counterexample.  The claim says a mode-switch call returning false
leaves selection, catalog and blacklist identical to their pre-call
values.  False: from local mode with catalog `["m1"]`, a switch to remote
whose discovery finds no models returns false yet leaves the manager in
remote mode with the default remote endpoint, an emptied catalog and a
changed current model. -/
theorem C1_counterexample :
    (switch_to_remote_mode none { disc := some [] } mgrLocal1).1 = false ∧
    ((switch_to_remote_mode none { disc := some [] } mgrLocal1).2).ollama_mode ≠
      mgrLocal1.ollama_mode ∧
    ((switch_to_remote_mode none { disc := some [] } mgrLocal1).2).models ≠
      mgrLocal1.models ∧
    ((switch_to_remote_mode none { disc := some [] } mgrLocal1).2).current_model_id ≠
      mgrLocal1.current_model_id ∧
    ((switch_to_remote_mode none { disc := some [] } mgrLocal1).2).ollama_host ≠
      mgrLocal1.ollama_host := by
  decide

/-- C1, amended.  Every mode-switch call leaves the blacklist identical to
its pre-call value, and a switch-to-local call returning false restores
the mode, endpoint, current model and mode flag (though not necessarily
the catalog); a switch-to-remote call returning false makes no such
guarantee. -/
theorem C1_failed_switch_amended :
    (∀ (envL : LocalSwitchEnv) (m : ModelManager),
      ((switch_to_local_mode envL m).2).blacklist = m.blacklist) ∧
    (∀ (hostArg : Option String) (envR : RemoteSwitchEnv) (m : ModelManager),
      ((switch_to_remote_mode hostArg envR m).2).blacklist = m.blacklist) ∧
    (∀ (envL : LocalSwitchEnv) (m : ModelManager),
      (switch_to_local_mode envL m).1 = false →
      (((switch_to_local_mode envL m).2).ollama_mode = m.ollama_mode ∧
       ((switch_to_local_mode envL m).2).ollama_host = m.ollama_host ∧
       ((switch_to_local_mode envL m).2).current_model_id = m.current_model_id ∧
       ((switch_to_local_mode envL m).2).using_local_ollama = m.using_local_ollama)) :=
  ⟨switch_local_blacklist, switch_remote_blacklist, switch_local_fail_restore⟩

/-- C1, witness for the amended theorem at a concrete failed switch. -/
theorem C1_witness :
    ((switch_to_local_mode envLWhichFail mgrRemoteA).2).blacklist =
      mgrRemoteA.blacklist ∧
    ((switch_to_local_mode envLWhichFail mgrRemoteA).2).ollama_mode =
      mgrRemoteA.ollama_mode := by
  have h := C1_failed_switch_amended
  exact ⟨h.1 envLWhichFail mgrRemoteA,
    (h.2.2 envLWhichFail mgrRemoteA (by decide)).1⟩

/-- C2, counterexample.  The claim allows a blacklisted result only when
neither the catalog nor the fallback list yields a usable non-blacklisted
candidate.  False: with catalog `["foo"]` (usable, not blacklisted) and a
blacklisted current model, `get_best_model` still returns the blacklisted
current model, because catalog entries outside the fixed fallback list
are never considered. -/
theorem C2_counterexample :
    (get_best_model penvFail mgrCatalogFoo).1.1 ∈ mgrCatalogFoo.blacklist ∧
    "foo" ∈ mgrCatalogFoo.models ∧
    "foo" ∉ mgrCatalogFoo.blacklist := by
  decide

/-- C2, amended.  `get_best_model` returns a blacklisted model only when
the current model is itself blacklisted, the result is exactly that
current model, and every candidate of the fixed fallback list is
blacklisted, or absent from the catalog and not acquirable — catalog
entries outside the fallback list are not consulted. -/
theorem C2_blacklist_amended (penv : String → PullEnv) (m : ModelManager)
    (h : (get_best_model penv m).1.1 ∈ m.blacklist) :
    m.current_model_id ∈ m.blacklist ∧
    (get_best_model penv m).1.1 = m.current_model_id ∧
    ∀ c ∈ fallback_models, candidateUnusable penv m c := by
  have hall : ∀ c ∈ fallback_models, candidateUnusable penv m c := by
    by_contra hex
    push_neg at hex
    obtain ⟨c, hcmem, hc⟩ := hex
    exact get_best_model_not_blacklisted penv m (Or.inr ⟨c, hcmem, hc⟩) h
  have h1 : ¬ (m.current_model_id ∈ m.models ∧ m.current_model_id ∉ m.blacklist) :=
    fun hcontra => get_best_model_not_blacklisted penv m (Or.inl hcontra) h
  have heq := get_best_model_exhaust penv m h1 hall
  rw [heq] at h ⊢
  exact ⟨h, rfl, hall⟩

/-- C2, witness for the amended theorem at a concrete state. -/
theorem C2_witness :
    mgrCatalogFoo.current_model_id ∈ mgrCatalogFoo.blacklist ∧
    (get_best_model penvFail mgrCatalogFoo).1.1 =
      mgrCatalogFoo.current_model_id := by
  have h := C2_blacklist_amended penvFail mgrCatalogFoo (by decide)
  exact ⟨h.1, h.2.1⟩

/-- C3, confirmed.  When the preferred (current) model is unusable and
every fallback candidate is blacklisted, or absent from the catalog and
not acquirable, `get_best_model` returns the original preferred model
with the fallback flag set, leaving the state unchanged; being a total
function of the embedded outcomes, it raises nothing. -/
theorem C3_exhaustion_returns_preferred (penv : String → PullEnv)
    (m : ModelManager)
    (h1 : ¬ (m.current_model_id ∈ m.models ∧ m.current_model_id ∉ m.blacklist))
    (h2 : ∀ c ∈ fallback_models, candidateUnusable penv m c) :
    get_best_model penv m = ((m.current_model_id, true), m) :=
  get_best_model_exhaust penv m h1 h2

/-- C3, witness: a remote manager with empty catalog and unusable
preferred model `"z"` gets `("z", wasFallback = true)`. -/
theorem C3_witness :
    get_best_model penvFail mgrExhausted = (("z", true), mgrExhausted) := by
  have h := C3_exhaustion_returns_preferred penvFail mgrExhausted
    (by decide) (by decide)
  exact h

/-- C4, counterexample.  The claim says any `test_model` probe whose
output contains the incompatibility signature blacklists the tested
model.  False: the signature scan exists only on the local branch's
stderr — in remote mode a failing generate whose response text carries
the very same signature returns failure with the blacklist untouched. -/
theorem C4_counterexample :
    containsSig sigStderr = true ∧
    (test_model testEnvSigRemote mgrRemoteX "x").1.1 = false ∧
    "x" ∉ ((test_model testEnvSigRemote mgrRemoteX "x").2).blacklist ∧
    ((test_model testEnvSigRemote mgrRemoteX "x").2).blacklist =
      mgrRemoteX.blacklist := by
  decide

/-- C4, amended.  In local mode, a probe whose stderr contains the
incompatibility signature makes `test_model` fail and append the model to
the blacklist (the catalog untouched); any later `get_best_model` on a
state blacklisting that model cannot return it while some usable fallback
candidate exists; none of the other embedded operations ever changes the
blacklist, and a remote-mode `test_model` never changes it either — the
automatic blacklisting is exclusively a local-probe side effect. -/
theorem C4_signature_blacklists (tenv : TestEnv) (m : ModelManager)
    (x : String) (rc : Int) (stderr : String)
    (hl : m.using_local_ollama = true) (hx : x ∉ m.blacklist)
    (hrun : tenv.run = TestRunOutcome.completed rc stderr)
    (hsig : containsSig stderr = true) :
    (test_model tenv m x).1.1 = false ∧
    x ∈ ((test_model tenv m x).2).blacklist ∧
    ((test_model tenv m x).2).models = m.models ∧
    (∀ (penv : String → PullEnv) (m' : ModelManager), x ∈ m'.blacklist →
      (∃ c ∈ fallback_models, ¬ candidateUnusable penv m' c) →
      (get_best_model penv m').1.1 ≠ x) ∧
    (∀ (envL : LocalSwitchEnv) (m₂ : ModelManager),
      ((switch_to_local_mode envL m₂).2).blacklist = m₂.blacklist) ∧
    (∀ (hostArg : Option String) (envR : RemoteSwitchEnv) (m₂ : ModelManager),
      ((switch_to_remote_mode hostArg envR m₂).2).blacklist = m₂.blacklist) ∧
    (∀ (e : PullEnv) (m₂ : ModelManager) (id : String),
      ((pull_model e m₂ id).2).blacklist = m₂.blacklist) ∧
    (∀ (penv : String → PullEnv) (m₂ : ModelManager),
      ((get_best_model penv m₂).2).blacklist = m₂.blacklist) ∧
    (∀ (tenv₂ : TestEnv) (m₂ : ModelManager) (y : String),
      m₂.using_local_ollama = false →
      ((test_model tenv₂ m₂ y).2).blacklist = m₂.blacklist) := by
  have hbl : is_model_blacklisted m x = false :=
    (is_model_blacklisted_false_iff m x).mpr hx
  have heval : test_model tenv m x =
      ((false, some "Tensor initialization error"),
       { m with blacklist := m.blacklist ++ [x] }) := by
    unfold test_model
    rw [if_neg (by simp [hbl]), if_pos hl, hrun]
    dsimp only
    rw [if_pos hsig]
  refine ⟨by rw [heval], by rw [heval]; simp, by rw [heval], ?_,
    switch_local_blacklist, switch_remote_blacklist, pull_model_blacklist,
    get_best_model_blacklist, test_model_remote_blacklist⟩
  intro penv m' hxbl hex hEq
  exact (get_best_model_not_blacklisted penv m' (Or.inr hex)) (hEq ▸ hxbl)

/-- C4, witness: testing `"x"` in local mode with the signature in stderr
fails and blacklists `"x"`. -/
theorem C4_witness :
    (test_model testEnvSig mgrFreshLocal "x").1.1 = false ∧
    "x" ∈ ((test_model testEnvSig mgrFreshLocal "x").2).blacklist := by
  have h := C4_signature_blacklists testEnvSig mgrFreshLocal "x" 1 sigStderr
    rfl (by decide) rfl (by decide)
  exact ⟨h.1, h.2.1⟩

/-- C5, counterexample.  The claim says every key missing from the file —
including keys nested inside the configuration map — retains its default.
False: a file whose config section lacks `"ui_port"` replaces the whole
default config wholesale (`dict.update` is shallow), so the nested
default `ui_port = 8046` is lost after `load_state`. -/
theorem C5_counterexample :
    configLookup "ui_port"
      ((load_state (some fileC5) (mkStatePersistence 100 60 none)).state) = none ∧
    configLookup "ui_port" ((mkStatePersistence 100 60 none).state) =
      some (.jint 8046) ∧
    jlookup "config"
      ((load_state (some fileC5) (mkStatePersistence 100 60 none)).state) =
      some (.jobj [("ollama_host", .jstr "http://10.0.0.5:11434")]) :=
  ⟨rfl, rfl, rfl⟩

/-- C5, amended.  `load_state` is total (never fatal): a missing or
corrupt file keeps the in-memory state; a parsed file is merged with
`dict.update`, so each top-level key present in the file wins wholesale —
including the whole configuration map — while top-level keys missing from
the file keep their in-memory values. -/
theorem C5_merge_amended :
    (∀ sp : StatePersistence, load_state none sp = sp) ∧
    (∀ (sp : StatePersistence) (fields : List (String × JVal)) (k : String),
      k ∉ fields.map Prod.fst →
      jlookup k ((load_state (some fields) sp).state) = jlookup k sp.state) ∧
    (∀ (sp : StatePersistence) (fields : List (String × JVal)) (k : String),
      (fields.map Prod.fst).Nodup → k ∈ fields.map Prod.fst →
      jlookup k ((load_state (some fields) sp).state) = jlookup k fields) := by
  refine ⟨fun sp => rfl, ?_, ?_⟩
  · intro sp fields k h
    exact jlookup_dictUpdate_not_mem fields sp.state k h
  · intro sp fields k hnd hk
    exact jlookup_dictUpdate_mem fields sp.state k hnd hk

/-- C5, witness for the amended theorem at a concrete file. -/
theorem C5_witness :
    jlookup "current_model"
      ((load_state (some fileC5) (mkStatePersistence 100 60 none)).state) =
      jlookup "current_model" ((mkStatePersistence 100 60 none)).state ∧
    jlookup "config"
      ((load_state (some fileC5) (mkStatePersistence 100 60 none)).state) =
      jlookup "config" fileC5 := by
  have h := C5_merge_amended
  exact ⟨h.2.1 _ fileC5 "current_model" (by decide),
    h.2.2 _ fileC5 "config" (by decide) (by decide)⟩

/-- C6, confirmed.  With `force = false`, a positive configured interval
not yet elapsed since the last successful write skips everything and
returns false; otherwise (elapsed, disabled interval, or `force = true`)
the full current snapshot with a refreshed timestamp is written, the
return value reports the write's success, and only a successful write
advances `last_save_time`. -/
theorem C6_debounced_save (sp : StatePersistence) (now : Int) (ok : Bool) :
    (0 < sp.auto_save_interval → now - sp.last_save_time < sp.auto_save_interval →
      save_state false now ok sp = (false, sp, none)) ∧
    (∀ frc : Bool,
      ¬ (frc = false ∧ 0 < sp.auto_save_interval ∧
          now - sp.last_save_time < sp.auto_save_interval) →
      ((save_state frc now ok sp).1 = ok ∧
       (save_state frc now ok sp).2.2 =
         (if ok then some (dictInsert "last_updated" (.jint now) sp.state)
          else none) ∧
       (save_state frc now ok sp).2.1.last_save_time =
         (if ok then now else sp.last_save_time))) := by
  constructor
  · intro h1 h2
    unfold save_state
    rw [if_pos ⟨rfl, h1, h2⟩]
  · intro frc h
    unfold save_state
    rw [if_neg h]
    dsimp only
    rcases ok
    · simp
    · simp

/-- C6, witness: with interval 60 and only 20 elapsed, an unforced save
is skipped; a forced one succeeds. -/
theorem C6_witness :
    save_state false 70 true spW = (false, spW, none) ∧
    (save_state true 70 true spW).1 = true := by
  have h := C6_debounced_save spW 70 true
  exact ⟨h.1 (by decide) (by decide), ((h.2 true (by simp)).1)⟩

/-- C7, confirmed.  A forced successful save followed by a fresh
construction plus `load_state` against the written file reproduces the
current model, the current database and the configuration map (only the
timestamp key is rewritten by the save). -/
theorem C7_round_trip (sp : StatePersistence) (now t1 iv : Int)
    (hnd : (sp.state.map Prod.fst).Nodup)
    (hm : "current_model" ∈ sp.state.map Prod.fst)
    (hd : "current_db" ∈ sp.state.map Prod.fst)
    (hc : "config" ∈ sp.state.map Prod.fst) :
    jlookup "current_model"
      ((load_state (save_state true now true sp).2.2
        (mkStatePersistence t1 iv (save_state true now true sp).2.2)).state) =
      jlookup "current_model" sp.state ∧
    jlookup "current_db"
      ((load_state (save_state true now true sp).2.2
        (mkStatePersistence t1 iv (save_state true now true sp).2.2)).state) =
      jlookup "current_db" sp.state ∧
    jlookup "config"
      ((load_state (save_state true now true sp).2.2
        (mkStatePersistence t1 iv (save_state true now true sp).2.2)).state) =
      jlookup "config" sp.state := by
  have hfile : (save_state true now true sp).2.2 =
      some (dictInsert "last_updated" (.jint now) sp.state) := by
    unfold save_state
    rw [if_neg (by simp)]
    rfl
  have hnd' : ((dictInsert "last_updated" (JVal.jint now) sp.state).map
      Prod.fst).Nodup := nodup_keys_dictInsert _ _ _ hnd
  have key : ∀ k : String, k ∈ sp.state.map Prod.fst → k ≠ "last_updated" →
      jlookup k
        ((load_state (save_state true now true sp).2.2
          (mkStatePersistence t1 iv (save_state true now true sp).2.2)).state) =
        jlookup k sp.state := by
    intro k hkmem hkne
    rw [hfile]
    have hkmem' : k ∈ ((dictInsert "last_updated" (JVal.jint now)
        sp.state).map Prod.fst) :=
      (mem_keys_dictInsert k "last_updated" _ sp.state).mpr (Or.inr hkmem)
    unfold mkStatePersistence load_state
    dsimp only
    rw [jlookup_dictUpdate_mem _ _ k hnd' hkmem',
      jlookup_dictInsert_ne k "last_updated" _ (fun he => hkne he.symm)]
  exact ⟨key "current_model" hm (by decide), key "current_db" hd (by decide),
    key "config" hc (by decide)⟩

/-- C7, witness at the default state. -/
theorem C7_witness :
    jlookup "current_model"
      ((load_state (save_state true 70 true spW).2.2
        (mkStatePersistence 100 60 (save_state true 70 true spW).2.2)).state) =
      jlookup "current_model" spW.state := by
  have h := C7_round_trip spW 70 100 60 (by decide) (by decide) (by decide)
    (by decide)
  exact h.1

/-- C8, counterexample.  The claim says a switch to the mode the manager
is already in is a no-op returning true.  False: already in remote mode,
`switch_to_remote_mode` with an explicit host re-runs the whole switch —
here discovery finds nothing, so it returns false and mutates the host,
catalog and current model. -/
theorem C8_counterexample :
    mgrRemoteA.using_local_ollama = false ∧
    (switch_to_remote_mode (some "http://b:1") { disc := some [] } mgrRemoteA).1 =
      false ∧
    (switch_to_remote_mode (some "http://b:1") { disc := some [] } mgrRemoteA).2 ≠
      mgrRemoteA := by
  decide

/-- C8, amended.  A switch to the current mode is a no-op returning true
when no explicit endpoint is passed (switch-to-remote with an explicit
endpoint re-runs the switch); and under identical environment outcomes,
running either switch twice with the same arguments yields the same
manager state as running it once. -/
theorem C8_idempotent_amended :
    (∀ (envL : LocalSwitchEnv) (m : ModelManager), m.using_local_ollama = true →
      switch_to_local_mode envL m = (true, m)) ∧
    (∀ (envR : RemoteSwitchEnv) (m : ModelManager), m.using_local_ollama = false →
      switch_to_remote_mode none envR m = (true, m)) ∧
    (∀ (envL : LocalSwitchEnv) (m : ModelManager),
      (switch_to_local_mode envL (switch_to_local_mode envL m).2).2 =
        (switch_to_local_mode envL m).2) ∧
    (∀ (hostArg : Option String) (envR : RemoteSwitchEnv) (m : ModelManager),
      (switch_to_remote_mode hostArg envR
        (switch_to_remote_mode hostArg envR m).2).2 =
        (switch_to_remote_mode hostArg envR m).2) :=
  ⟨switch_local_noop, switch_remote_noop, switch_local_idem, switch_remote_idem⟩

/-- C8, witness: a local-mode manager is untouched by a local switch. -/
theorem C8_witness :
    switch_to_local_mode envLWhichFail mgrLocal1 = (true, mgrLocal1) := by
  have h := C8_idempotent_amended
  exact h.1 envLWhichFail mgrLocal1 rfl

/-- C9, counterexample.  The claim says no write is performed by the loop
after `stop()` returns.  False: the loop can be about to write its tick
when `stop()` clears the flag and `join(timeout=3)` times out with the
thread still alive; `stop()` returns, and the pending write then
executes. -/
theorem C9_counterexample :
    ReporterReach reporterStart cfgReturnedWrite ∧
    cfgReturnedWrite.spc = SPC.returned ∧
    ReporterStep cfgReturnedWrite (some REvent.write) cfgAfterWrite := by
  refine ⟨?_, rfl, ReporterStep.tick_write _ rfl⟩
  refine Relation.ReflTransGen.head
    ⟨none, ReporterStep.check_true reporterStart rfl rfl⟩ ?_
  refine Relation.ReflTransGen.head
    ⟨none, ReporterStep.stop_signal _ rfl⟩ ?_
  refine Relation.ReflTransGen.head
    ⟨none, ReporterStep.stop_join_timeout _ rfl (by decide)⟩ ?_
  exact Relation.ReflTransGen.refl

/-- C9, amended.  `stop()` signals the loop (once the flag is cleared it
stays cleared), and a terminated loop thread is absorbing: no step from a
finished thread is a write — so when the bounded join observes the thread
finished, no write follows `stop()`'s return; only a timed-out join can
be followed by one further write. -/
theorem C9_stop_amended :
    (∀ (c : RCfg) (e : Option REvent) (c' : RCfg), ReporterStep c e c' →
      c.tpc = TPC.done → (c'.tpc = TPC.done ∧ e ≠ some REvent.write)) ∧
    (∀ (c : RCfg) (e : Option REvent) (c' : RCfg), ReporterStep c e c' →
      c.running = false → c'.running = false) :=
  ⟨reporterStep_done_absorbing, reporterStep_running_false⟩

/-- C9, witness: a normally-completed join makes one concrete non-write
step from a finished thread. -/
theorem C9_witness :
    ({ running := false, tpc := TPC.done, spc := SPC.returned } : RCfg).tpc =
      TPC.done ∧ (none : Option REvent) ≠ some REvent.write := by
  have h := C9_stop_amended
  exact h.1 { running := false, tpc := TPC.done, spc := SPC.signalled } none
    { running := false, tpc := TPC.done, spc := SPC.returned }
    (ReporterStep.stop_join_done _ rfl rfl) rfl

/-- C10, confirmed.  A save whose file write raises returns false and
leaves `last_save_time` unchanged, yet the in-memory timestamp has
already been set to the attempted save time, every other state key being
untouched. -/
theorem C10_failed_save_frame (sp : StatePersistence) (now : Int) (frc : Bool)
    (h : ¬ (frc = false ∧ 0 < sp.auto_save_interval ∧
        now - sp.last_save_time < sp.auto_save_interval)) :
    (save_state frc now false sp).1 = false ∧
    (save_state frc now false sp).2.1.last_save_time = sp.last_save_time ∧
    jlookup "last_updated" ((save_state frc now false sp).2.1.state) =
      some (.jint now) ∧
    (∀ k : String, k ≠ "last_updated" →
      jlookup k ((save_state frc now false sp).2.1.state) = jlookup k sp.state) ∧
    (save_state frc now false sp).2.2 = none := by
  have heval : save_state frc now false sp =
      (false, { sp with state := dictInsert "last_updated" (.jint now) sp.state },
       none) := by
    unfold save_state
    rw [if_neg h]
    rfl
  rw [heval]
  refine ⟨rfl, rfl, jlookup_dictInsert_self _ _ _, ?_, rfl⟩
  intro k hk
  exact jlookup_dictInsert_ne k "last_updated" _ (fun he => hk he.symm) sp.state

/-- C10, witness at a concrete forced failing save. -/
theorem C10_witness :
    (save_state true 200 false spW).1 = false ∧
    (save_state true 200 false spW).2.1.last_save_time = spW.last_save_time ∧
    jlookup "last_updated" ((save_state true 200 false spW).2.1.state) =
      some (.jint 200) := by
  have h := C10_failed_save_frame spW 200 true (by simp)
  exact ⟨h.1, h.2.1, h.2.2.1⟩
